import Mathlib

/-!
Verification of the icon-generation script of the bookmarkable repository
(scripts/create-icons.py).  The script is embedded shallowly: the drawing
calls issued by create_icon become an explicit list of drawing commands,
the driver main becomes a pure function from the script location to the
batch of file writes, and the module-level execution (the PIL import on
line 7 followed by the guarded call to main) becomes a function into
Except.  Python float arithmetic (int(n * 0.6) and friends) is modelled
exactly: multiplication of an integer by a binary64 constant, rounded to
nearest with ties to even, then truncated.
-/

namespace CreateIcons

/-- An RGB color, as the 3-tuples that the script passes to Pillow fills. -/
structure Color where
  r : ℕ
  g : ℕ
  b : ℕ
deriving DecidableEq, Repr

/-- Source line 18: bg_color = (37, 99, 235). -/
def bg_color : Color := ⟨37, 99, 235⟩

/-- Source line 19: text_color = (255, 255, 255). -/
def text_color : Color := ⟨255, 255, 255⟩

/-- Source line 55: the inline green fill (52, 211, 153) of the badge circle. -/
def badge_green : Color := ⟨52, 211, 153⟩

/-- One drawing-primitive call on the ImageDraw object.  Coordinates are the
corners of the bounding boxes as passed in the source; every coordinate the
script computes is a nonnegative integer (proved below), so ℕ is used. -/
inductive DrawCmd where
  | roundedRectangle (x0 y0 x1 y1 : ℕ) (radius : ℕ) (fill : Color)
  | polygon (points : List (ℕ × ℕ)) (fill : Color)
  | ellipse (x0 y0 x1 y1 : ℕ) (fill : Color)
  | rectangle (x0 y0 x1 y1 : ℕ) (fill : Color)
deriving DecidableEq, Repr

/-- The fill color of a drawing command. -/
def fillOf : DrawCmd → Color
  | .roundedRectangle _ _ _ _ _ f => f
  | .polygon _ f => f
  | .ellipse _ _ _ _ f => f
  | .rectangle _ _ _ _ f => f

/-! ## Exact model of the Python float expressions

The script computes int(size * 0.6), int(bookmark_height * 0.7) and
int(bookmark_height * 0.9).  CPython evaluates these in IEEE-754 binary64:
the int operand is converted to the nearest double, multiplied by the
double nearest to the decimal literal, the product rounded to nearest
(ties to even), and int truncates toward zero.  All operands here are
nonnegative, so truncation is the floor.  The binary64 values of the
literals are exactly
  0.6 = 5404319552844595 / 2^53
  0.7 = 3152519739159347 / 2^52
  0.9 = 8106479329266893 / 2^53
(the numerators are the 53-bit significands).  We model the rounding over ℕ.
-/

/-- Round a / d to the nearest natural number, ties to even (d positive). -/
def rne (a d : ℕ) : ℕ :=
  let q := a / d
  let r := a % d
  if 2 * r < d then q
  else if d < 2 * r then q + 1
  else if q % 2 = 0 then q else q + 1

/-- Fuel-driven floor of log2; the fuel only bounds the recursion depth. -/
def lg2 : ℕ → ℕ → ℕ
  | 0, _ => 0
  | fuel + 1, n => if n < 2 then 0 else lg2 fuel (n / 2) + 1

/-- Floor of log2 n for n ≥ 1 (fuel n suffices since n < 2 ^ n). -/
def myLog2 (n : ℕ) : ℕ := lg2 n n

/-- The value of the binary64 double nearest to the integer n (always itself
an integer: doubles at or above 2^53 are integers, below 2^53 n is exact). -/
def fltNat (n : ℕ) : ℕ :=
  if n < 2 ^ 53 then n
  else
    let b := myLog2 n
    rne n (2 ^ (b - 52)) * 2 ^ (b - 52)

/-- int(n * c) as CPython computes it, where c is the binary64 double
mant / 2 ^ s with 0 < mant < 2 ^ 53 ≤ 2 ^ s: convert n to double, multiply
(rounding the exact product to the nearest double, ties to even), truncate. -/
def pyIntMul (mant s n : ℕ) : ℕ :=
  let M := fltNat n * mant
  if M = 0 then 0
  else
    let b := myLog2 M
    if b ≤ 52 then M / 2 ^ s
    else rne M (2 ^ (b - 52)) * 2 ^ (b - 52) / 2 ^ s

/-- int(n * 0.6) in CPython. -/
def py06 (n : ℕ) : ℕ := pyIntMul 5404319552844595 53 n

/-- int(n * 0.7) in CPython. -/
def py07 (n : ℕ) : ℕ := pyIntMul 3152519739159347 52 n

/-- int(n * 0.9) in CPython. -/
def py09 (n : ℕ) : ℕ := pyIntMul 8106479329266893 53 n

/-! ## The generator create_icon (source lines 10 to 73) -/

/-- Source lines 29 to 42: the five vertices of the bookmark polygon.
The source flattens them as [x0, y0, x1, y1, ...]; we keep them as pairs.
bookmark_width = size // 2, bookmark_height = int(size * 0.6),
bookmark_x = (size - bookmark_width) // 2,
bookmark_y = (size - bookmark_height) // 2.  All subtractions are
nonnegative (py06 size ≤ size is proved below), so ℕ subtraction agrees
with Python. -/
def bookmark_points (size : ℕ) : List (ℕ × ℕ) :=
  let bookmark_width := size / 2
  let bookmark_height := py06 size
  let bookmark_x := (size - bookmark_width) / 2
  let bookmark_y := (size - bookmark_height) / 2
  [ (bookmark_x, bookmark_y),
    (bookmark_x + bookmark_width, bookmark_y),
    (bookmark_x + bookmark_width, bookmark_y + py07 bookmark_height),
    (bookmark_x + bookmark_width / 2, bookmark_y + py09 bookmark_height),
    (bookmark_x, bookmark_y + py07 bookmark_height) ]

/-- Source lines 47 to 69: for size >= 32, the badge circle and the two bars
of the plus sign; otherwise nothing.  plus_size = size // 8,
plus_x = size - plus_size - 2, plus_y = 2,
plus_thickness = max(1, plus_size // 4). -/
def plus_cmds (size : ℕ) : List DrawCmd :=
  if 32 ≤ size then
    let plus_size := size / 8
    let plus_x := size - plus_size - 2
    let plus_y := 2
    let plus_thickness := max 1 (plus_size / 4)
    [ DrawCmd.ellipse (plus_x - 2) (plus_y - 2)
        (plus_x + plus_size + 2) (plus_y + plus_size + 2) badge_green,
      DrawCmd.rectangle (plus_x + plus_size / 2 - plus_thickness / 2) plus_y
        (plus_x + plus_size / 2 + plus_thickness / 2) (plus_y + plus_size) text_color,
      DrawCmd.rectangle plus_x (plus_y + plus_size / 2 - plus_thickness / 2)
        (plus_x + plus_size) (plus_y + plus_size / 2 + plus_thickness / 2) text_color ]
  else []

/-- The ordered list of drawing commands create_icon issues for a given size:
the rounded-rectangle background (lines 22 to 27), the bookmark polygon
(line 44), then the conditional badge commands (lines 47 to 69). -/
def icon_cmds (size : ℕ) : List DrawCmd :=
  DrawCmd.roundedRectangle (size / 8) (size / 8) (size - size / 8) (size - size / 8)
      (size / 6) bg_color
    :: DrawCmd.polygon (bookmark_points size) text_color
    :: plus_cmds size

/-- The in-memory image: mode, dimensions and initial fill from
Image.new on line 14, plus the drawing commands applied to it. -/
structure Icon where
  mode : String
  width : ℕ
  height : ℕ
  background : ℕ × ℕ × ℕ × ℕ
  cmds : List DrawCmd
deriving DecidableEq, Repr

/-- The observable effect of one call to create_icon: the file written
(img.save(filename, PNG) on line 72) and the image content saved there. -/
structure SavedFile where
  path : List String
  format : String
  image : Icon
deriving DecidableEq, Repr

/-- Source lines 10 to 73: create_icon(size, filename).  Paths are modelled
as lists of components. -/
def create_icon (size : ℕ) (filename : List String) : SavedFile :=
  { path := filename
    format := "PNG"
    image :=
      { mode := "RGBA"
        width := size
        height := size
        background := (0, 0, 0, 0)
        cmds := icon_cmds size } }

/-! ## The driver main (source lines 75 to 97) -/

/-- os.path.dirname on a path given as a list of components. -/
def dirname (p : List String) : List String := p.dropLast

/-- The effects of one run of main, given the absolute path of the script
file (os.path.abspath of the module file): the directory passed to
os.makedirs, the exist_ok flag it is called with, and the generator calls
in order. -/
structure DriverRun where
  iconsDir : List String
  makedirsExistOk : Bool
  files : List SavedFile
deriving DecidableEq, Repr

/-- Source lines 75 to 97: script_dir = dirname(abspath(file)),
icons_dir = join(dirname(script_dir), extension, icons),
makedirs(icons_dir, exist_ok=True), then create_icon for each size in
[16, 32, 48, 128] at icons_dir/icon{size}.png. -/
def main (scriptAbs : List String) : DriverRun :=
  let script_dir := dirname scriptAbs
  let icons_dir := dirname script_dir ++ ["extension", "icons"]
  { iconsDir := icons_dir
    makedirsExistOk := true
    files := [16, 32, 48, 128].map fun size =>
      create_icon size (icons_dir ++ ["icon" ++ toString size ++ ".png"]) }

/-! ## Module-level execution (source lines 7 and 99 to 108) -/

/-- The exceptions distinguished by the handlers on lines 102 and 106. -/
inductive PyError where
  | importError
  | other
deriving DecidableEq, Repr

/-- Source line 7: from PIL import Image, ImageDraw, ImageFont.  Raises
ImportError when Pillow is unavailable. -/
def importPIL (pillowAvailable : Bool) : Except PyError Unit :=
  if pillowAvailable then .ok () else .error .importError

/-- The messages printed by the except ImportError handler (lines 103 to 105). -/
def installMsgs : List String :=
  [ "Error: Pillow library not found",
    "Install it with: pip install Pillow",
    "Or create icons manually using any image editor" ]

/-- Source lines 100 to 108: the try/except around the call to main.  Given
the outcome of main(), returns the lines the handlers print; exceptions do
not escape this block. -/
def mainGuard (mainOutcome : Except PyError Unit) : Except PyError (List String) :=
  match mainOutcome with
  | .ok _ => .ok []
  | .error .importError => .ok installMsgs
  | .error .other =>
      .ok [ "Error creating icons", "You can create icons manually using any image editor" ]

/-- Execution of the whole module: the import on line 7 runs first, at top
level, outside any try block, so an exception it raises propagates out of
the process (modelled as Except.error); only if it succeeds does control
reach the guarded call to main on lines 100 to 108. -/
def moduleRun (pillowAvailable : Bool) (mainOutcome : Except PyError Unit) :
    Except PyError (List String) :=
  match importPIL pillowAvailable with
  | .error e => .error e
  | .ok _ => mainGuard mainOutcome

/-- The bookmark polygon as the spec words it (used to compare against the
code): width = size // 2, height = floor(size * 0.6) taken as the exact
rational floor (3 * size) / 5, and the 70 and 90 percent heights as exact
truncations 7 * h / 10 and 9 * h / 10. -/
def spec_bookmark_points (size : ℕ) : List (ℕ × ℕ) :=
  let w := size / 2
  let h := 3 * size / 5
  let x := (size - w) / 2
  let y := (size - h) / 2
  [ (x, y),
    (x + w, y),
    (x + w, y + 7 * h / 10),
    (x + w / 2, y + 9 * h / 10),
    (x, y + 7 * h / 10) ]

/-- The vertical extent of a rectangle command, if the command is one. -/
def rectYSpan : DrawCmd → Option (ℕ × ℕ)
  | .rectangle _ y0 _ y1 _ => some (y0, y1)
  | _ => none

/-- The horizontal extent of a rectangle command, if the command is one. -/
def rectXSpan : DrawCmd → Option (ℕ × ℕ)
  | .rectangle x0 _ x1 _ _ => some (x0, x1)
  | _ => none

example : py06 16 = 9 := by decide
example : py06 150 = 90 := by decide
example : py07 90 = 62 := by decide
example : py09 90 = 81 := by decide
example : py06 128 = 76 := by decide
example : py07 76 = 53 := by decide
example : py09 76 = 68 := by decide

/-! ## Arithmetic facts about the float model -/

/-- With enough fuel, lg2 is the floor of log2: it brackets n between
consecutive powers of two. -/
theorem lg2_spec (fuel : ℕ) : ∀ n, 0 < n → n < 2 ^ fuel →
    2 ^ lg2 fuel n ≤ n ∧ n < 2 ^ (lg2 fuel n + 1) := by
  induction fuel with
  | zero => intro n h1 h2; simp at h2; omega
  | succ fuel ih =>
    intro n h1 h2
    simp only [lg2]
    by_cases h : n < 2
    · simp [h]; omega
    · simp only [h, if_false]
      have hh1 : 0 < n / 2 := by omega
      have hh2 : n / 2 < 2 ^ fuel := by rw [pow_succ] at h2; omega
      obtain ⟨a, b⟩ := ih (n / 2) hh1 hh2
      have e1 := pow_succ 2 (lg2 fuel (n / 2))
      have e2 := pow_succ 2 (lg2 fuel (n / 2) + 1)
      constructor <;> omega

/-- myLog2 brackets every positive n between consecutive powers of two. -/
theorem myLog2_spec (n : ℕ) (h : 0 < n) :
    2 ^ myLog2 n ≤ n ∧ n < 2 ^ (myLog2 n + 1) :=
  lg2_spec n n h (Nat.lt_two_pow n)

/-- Rounding a to the nearest multiple of d moves it up by at most d / 2. -/
theorem rne_mul_le (a d : ℕ) (hd : 0 < d) : 2 * (rne a d * d) ≤ 2 * a + d := by
  have h0 : d * (a / d) + a % d = a := Nat.div_add_mod a d
  have hdq : d * (a / d) ≤ a := Nat.le.intro h0
  simp only [rne]
  by_cases h1 : 2 * (a % d) < d
  · rw [if_pos h1]
    have : a / d * d = d * (a / d) := by ring
    omega
  · rw [if_neg h1]
    have hexp : (a / d + 1) * d = d * (a / d) + d := by ring
    have hqd : a / d * d = d * (a / d) := by ring
    by_cases h2 : d < 2 * (a % d)
    · rw [if_pos h2]
      omega
    · rw [if_neg h2]
      by_cases h3 : a / d % 2 = 0
      · rw [if_pos h3]
        omega
      · rw [if_neg h3]
        omega

/-- The double nearest to n exceeds n by at most one part in 2 ^ 53. -/
theorem fltNat_le (n : ℕ) : fltNat n * 2 ^ 53 ≤ n * (2 ^ 53 + 1) := by
  simp only [fltNat]
  by_cases h : n < 2 ^ 53
  · rw [if_pos h]
    exact mul_le_mul_left' (by omega) n
  · rw [if_neg h]
    have hn : 0 < n := by omega
    obtain ⟨hb1, hb2⟩ := myLog2_spec n hn
    have hb53 : 53 ≤ myLog2 n := by
      by_contra hc
      push_neg at hc
      have : (2 : ℕ) ^ (myLog2 n + 1) ≤ 2 ^ 53 :=
        Nat.pow_le_pow_right (by omega) (by omega)
      omega
    have hd : 0 < (2 : ℕ) ^ (myLog2 n - 52) := pow_pos (by omega) _
    have key := rne_mul_le n (2 ^ (myLog2 n - 52)) hd
    have hsplit : (2 : ℕ) ^ (myLog2 n - 52) * 2 ^ 52 = 2 ^ myLog2 n := by
      rw [← pow_add]
      congr 1
      omega
    have k2 : 2 * (rne n (2 ^ (myLog2 n - 52)) * 2 ^ (myLog2 n - 52)) * 2 ^ 52 ≤
        (2 * n + 2 ^ (myLog2 n - 52)) * 2 ^ 52 :=
      mul_le_mul_right' key _
    rw [add_mul, hsplit] at k2
    have hW : rne n (2 ^ (myLog2 n - 52)) * 2 ^ (myLog2 n - 52) * 2 ^ 53 =
        2 * (rne n (2 ^ (myLog2 n - 52)) * 2 ^ (myLog2 n - 52)) * 2 ^ 52 := by
      rw [pow_succ 2 52]
      ring
    have hn2 : 2 * n * 2 ^ 52 = n * 2 ^ 53 := by
      rw [pow_succ 2 52]
      ring
    rw [hW]
    omega

/-- Dividing out the common 2 ^ 106 factor in the final bound. -/
theorem div_le_of_mul_pow_le (V n s : ℕ) (h : V * 2 ^ 106 ≤ n * 2 ^ (s + 106)) :
    V / 2 ^ s ≤ n := by
  have h2 : n * 2 ^ (s + 106) = n * 2 ^ s * 2 ^ 106 := by rw [pow_add]; ring
  rw [h2] at h
  have hV : V ≤ n * 2 ^ s :=
    Nat.le_of_mul_le_mul_right h (pow_pos (by omega) _)
  calc V / 2 ^ s ≤ n * 2 ^ s / 2 ^ s := Nat.div_le_div_right hV
  _ = n := Nat.mul_div_cancel n (pow_pos (by omega) _)

/-- Multiplying n by a double constant below one and truncating never
exceeds n: the combined relative slack of converting n to double, of the
product rounding, and of the constant itself stays below one whenever
mant * (2 ^ 53 + 1) ^ 2 ≤ 2 ^ (s + 106). -/
theorem pyIntMul_le (mant s n : ℕ) (hc : mant * (2 ^ 53 + 1) ^ 2 ≤ 2 ^ (s + 106)) :
    pyIntMul mant s n ≤ n := by
  simp only [pyIntMul]
  by_cases hM : fltNat n * mant = 0
  · rw [if_pos hM]
    omega
  · rw [if_neg hM]
    have hMpos : 0 < fltNat n * mant := Nat.pos_of_ne_zero hM
    obtain ⟨hb1, hb2⟩ := myLog2_spec _ hMpos
    have hMn : fltNat n * mant * 2 ^ 53 ≤ n * (2 ^ 53 + 1) * mant := by
      calc fltNat n * mant * 2 ^ 53 = fltNat n * 2 ^ 53 * mant := by ring
      _ ≤ n * (2 ^ 53 + 1) * mant := mul_le_mul_right' (fltNat_le n) mant
    have hchain : ∀ V : ℕ, V * 2 ^ 53 ≤ fltNat n * mant * (2 ^ 53 + 1) →
        V / 2 ^ s ≤ n := by
      intro V hV
      apply div_le_of_mul_pow_le
      have step1 : V * 2 ^ 106 = V * 2 ^ 53 * 2 ^ 53 := by
        rw [mul_assoc, ← pow_add]
      have step2 : V * 2 ^ 53 * 2 ^ 53 ≤
          fltNat n * mant * (2 ^ 53 + 1) * 2 ^ 53 :=
        mul_le_mul_right' hV _
      have step3 : fltNat n * mant * (2 ^ 53 + 1) * 2 ^ 53 =
          fltNat n * mant * 2 ^ 53 * (2 ^ 53 + 1) := by ring
      have step4 : fltNat n * mant * 2 ^ 53 * (2 ^ 53 + 1) ≤
          n * (2 ^ 53 + 1) * mant * (2 ^ 53 + 1) :=
        mul_le_mul_right' hMn _
      have step5 : n * (2 ^ 53 + 1) * mant * (2 ^ 53 + 1) =
          n * (mant * (2 ^ 53 + 1) ^ 2) := by ring
      have step6 : n * (mant * (2 ^ 53 + 1) ^ 2) ≤ n * 2 ^ (s + 106) :=
        mul_le_mul_left' hc n
      omega
    by_cases hb : myLog2 (fltNat n * mant) ≤ 52
    · rw [if_pos hb]
      exact hchain _ (mul_le_mul_left' (by omega) _)
    · rw [if_neg hb]
      apply hchain
      have hd : 0 < (2 : ℕ) ^ (myLog2 (fltNat n * mant) - 52) :=
        pow_pos (by omega) _
      have key := rne_mul_le (fltNat n * mant)
        (2 ^ (myLog2 (fltNat n * mant) - 52)) hd
      have hsplit : (2 : ℕ) ^ (myLog2 (fltNat n * mant) - 52) * 2 ^ 52 =
          2 ^ myLog2 (fltNat n * mant) := by
        rw [← pow_add]
        congr 1
        omega
      have k2 : 2 * (rne (fltNat n * mant) (2 ^ (myLog2 (fltNat n * mant) - 52)) *
            2 ^ (myLog2 (fltNat n * mant) - 52)) * 2 ^ 52 ≤
          (2 * (fltNat n * mant) + 2 ^ (myLog2 (fltNat n * mant) - 52)) * 2 ^ 52 :=
        mul_le_mul_right' key _
      rw [add_mul, hsplit] at k2
      have hW : rne (fltNat n * mant) (2 ^ (myLog2 (fltNat n * mant) - 52)) *
            2 ^ (myLog2 (fltNat n * mant) - 52) * 2 ^ 53 =
          2 * (rne (fltNat n * mant) (2 ^ (myLog2 (fltNat n * mant) - 52)) *
            2 ^ (myLog2 (fltNat n * mant) - 52)) * 2 ^ 52 := by
        rw [pow_succ 2 52]
        ring
      have hM2 : 2 * (fltNat n * mant) * 2 ^ 52 = fltNat n * mant * 2 ^ 53 := by
        rw [pow_succ 2 52]
        ring
      rw [hW]
      have hexpand : fltNat n * mant * (2 ^ 53 + 1) =
          fltNat n * mant * 2 ^ 53 + fltNat n * mant := by ring
      omega

/-- Specialization: int(n * 0.6) is at most n. -/
theorem py06_le (n : ℕ) : py06 n ≤ n :=
  pyIntMul_le _ _ _ (by norm_num)

/-- Specialization: int(n * 0.7) is at most n. -/
theorem py07_le (n : ℕ) : py07 n ≤ n :=
  pyIntMul_le _ _ _ (by norm_num)

/-- Specialization: int(n * 0.9) is at most n. -/
theorem py09_le (n : ℕ) : py09 n ≤ n :=
  pyIntMul_le _ _ _ (by norm_num)

/-! ## The claims -/

/-- C1: the spec says a missing Pillow is caught by the top-level handler,
which prints install instructions, and the process exits normally.  In the
code the import on line 7 runs at module top level, before the try block on
line 100 is ever entered, so the ImportError propagates uncaught and the
process crashes; the except ImportError handler (which does print exactly
those instructions, second conjunct) is unreachable for this failure. -/
theorem c1_import_error_uncaught :
    (∀ m : Except PyError Unit, moduleRun false m = Except.error PyError.importError) ∧
    mainGuard (Except.error PyError.importError) = Except.ok installMsgs :=
  ⟨fun _ => rfl, rfl⟩

/-- C3: the driver resolves the output directory as the parent of the parent
of the script file followed by extension/icons, calls makedirs with
exist_ok set, and generates the sizes 16, 32, 48, 128 in that order at
icon<size>.png inside that directory. -/
theorem c3_driver_resolution (p : List String) :
    (main p).iconsDir = p.dropLast.dropLast ++ ["extension", "icons"] ∧
    (main p).makedirsExistOk = true ∧
    (main p).files.map (fun f => (f.image.width, f.path)) =
      [ (16, p.dropLast.dropLast ++ ["extension", "icons"] ++ ["icon16.png"]),
        (32, p.dropLast.dropLast ++ ["extension", "icons"] ++ ["icon32.png"]),
        (48, p.dropLast.dropLast ++ ["extension", "icons"] ++ ["icon48.png"]),
        (128, p.dropLast.dropLast ++ ["extension", "icons"] ++ ["icon128.png"]) ] :=
  ⟨rfl, rfl, rfl⟩

/-- C6: for every positive size the first drawing command is the filled
rounded rectangle from margin = size // 8 to size - margin with corner
radius size // 6 in the fixed blue (37, 99, 235). -/
theorem c6_background_plate (size : ℕ) (f : List String) (h : 0 < size) :
    (create_icon size f).image.cmds.get? 0 =
      some (DrawCmd.roundedRectangle (size / 8) (size / 8) (size - size / 8)
        (size - size / 8) (size / 6) bg_color) :=
  rfl

/-- C6 witness at size 16: margin 2, radius 2. -/
theorem c6_background_plate_witness :
    0 < 16 ∧ (create_icon 16 []).image.cmds.get? 0 =
      some (DrawCmd.roundedRectangle 2 2 14 14 2 bg_color) :=
  ⟨by decide, c6_background_plate 16 [] (by decide)⟩

/-- C7: every canvas is allocated as an RGBA image of dimensions size by
size with a fully transparent initial fill, and the batch writes images of
dimensions 16, 32, 48 and 128. -/
theorem c7_canvas_dimensions :
    (∀ (size : ℕ) (f : List String),
      (create_icon size f).image.mode = "RGBA" ∧
      (create_icon size f).image.width = size ∧
      (create_icon size f).image.height = size ∧
      (create_icon size f).image.background = (0, 0, 0, 0)) ∧
    (∀ p : List String,
      (main p).files.map (fun f => (f.image.width, f.image.height)) =
        [(16, 16), (32, 32), (48, 48), (128, 128)]) :=
  ⟨fun _ _ => ⟨rfl, rfl, rfl, rfl⟩, fun _ => rfl⟩

/-- C8: the image content is a pure function of the size alone: it does not
depend on the output filename, and two batch runs (from any two script
locations) save identical image content for each size. -/
theorem c8_deterministic :
    (∀ (size : ℕ) (f1 f2 : List String),
      (create_icon size f1).image = (create_icon size f2).image) ∧
    (∀ p1 p2 : List String,
      (main p1).files.map (fun f => f.image) = (main p2).files.map (fun f => f.image)) :=
  ⟨fun _ _ _ => rfl, fun _ _ => rfl⟩

/-- C4: a badge-green drawing command is issued if and only if size >= 32
(for size >= 32 the badge circle carries the green fill; below 32 no
command uses the green at all). -/
theorem c4_badge_green_iff (size : ℕ) (f : List String) :
    (∃ c ∈ (create_icon size f).image.cmds, fillOf c = badge_green) ↔ 32 ≤ size := by
  have hcm : (create_icon size f).image.cmds =
      DrawCmd.roundedRectangle (size / 8) (size / 8) (size - size / 8) (size - size / 8)
        (size / 6) bg_color
      :: DrawCmd.polygon (bookmark_points size) text_color
      :: plus_cmds size := rfl
  by_cases h : 32 ≤ size
  · constructor
    · intro _
      exact h
    · intro _
      rw [hcm]
      refine ⟨DrawCmd.ellipse (size - size / 8 - 2 - 2) (2 - 2)
        (size - size / 8 - 2 + size / 8 + 2) (2 + size / 8 + 2) badge_green, ?_, rfl⟩
      simp only [plus_cmds]
      rw [if_pos h]
      simp
  · constructor
    · rintro ⟨c, hc, hfill⟩
      exfalso
      have hpc : plus_cmds size = [] := by
        simp only [plus_cmds]
        rw [if_neg h]
      rw [hcm, hpc] at hc
      simp only [List.mem_cons, List.not_mem_nil, or_false] at hc
      rcases hc with rfl | rfl
      · simp [fillOf, bg_color, badge_green] at hfill
      · simp [fillOf, text_color, badge_green] at hfill
    · intro hc
      exact absurd hc h

/-- C9: for every size >= 32 the badge circle bounding box is exactly
[size - size // 8 - 4, 0, size, size // 8 + 4]: flush with the top and
right edges of the canvas. -/
theorem c9_badge_circle_bbox (size : ℕ) (f : List String) (h : 32 ≤ size) :
    (create_icon size f).image.cmds.get? 2 =
      some (DrawCmd.ellipse (size - size / 8 - 4) 0 size (size / 8 + 4) badge_green) := by
  have hcm : (create_icon size f).image.cmds.get? 2 = (plus_cmds size).get? 0 := rfl
  rw [hcm]
  simp only [plus_cmds]
  rw [if_pos h]
  simp only [List.get?, Option.some.injEq, DrawCmd.ellipse.injEq]
  exact ⟨by omega, trivial, by omega, by omega, trivial⟩

/-- C9 witness at size 32: the circle box is [24, 0, 32, 8]. -/
theorem c9_badge_circle_bbox_witness :
    32 ≤ 32 ∧ (create_icon 32 []).image.cmds.get? 2 =
      some (DrawCmd.ellipse 24 0 32 8 badge_green) :=
  ⟨by decide, c9_badge_circle_bbox 32 [] (by decide)⟩

/-- C2 counterexample: at size 32 the circle bounding box is [24, 0, 32, 8],
but the vertical bar spans y from 2 to 6 (not 0 to 8) and the horizontal
bar spans x from 26 to 30 (not 24 to 32), so neither rectangle spans the
circle bounding box as the claim states. -/
theorem c2_counterexample :
    ((create_icon 32 []).image.cmds.get? 3).map rectYSpan ≠ some (some (0, 8)) ∧
    ((create_icon 32 []).image.cmds.get? 4).map rectXSpan ≠ some (some (24, 32)) := by
  decide

/-- C2 amended: for every size >= 32 the two white bars of thickness
max(1, (size // 8) // 4) span the plus anchor box
[plusX, plusY, plusX + plusSize, plusY + plusSize] vertically respectively
horizontally (two pixels inside the circle bounding box on each side, not
the circle bounding box itself). -/
theorem c2_plus_bars (size : ℕ) (f : List String) (h : 32 ≤ size) :
    (create_icon size f).image.cmds.get? 3 =
      some (DrawCmd.rectangle (size - size / 8 - 2 + size / 8 / 2 - max 1 (size / 8 / 4) / 2) 2
        (size - size / 8 - 2 + size / 8 / 2 + max 1 (size / 8 / 4) / 2) (2 + size / 8)
        text_color) ∧
    (create_icon size f).image.cmds.get? 4 =
      some (DrawCmd.rectangle (size - size / 8 - 2)
        (2 + size / 8 / 2 - max 1 (size / 8 / 4) / 2)
        (size - size / 8 - 2 + size / 8) (2 + size / 8 / 2 + max 1 (size / 8 / 4) / 2)
        text_color) := by
  have h3 : (create_icon size f).image.cmds.get? 3 = (plus_cmds size).get? 1 := rfl
  have h4 : (create_icon size f).image.cmds.get? 4 = (plus_cmds size).get? 2 := rfl
  rw [h3, h4]
  simp only [plus_cmds]
  rw [if_pos h]
  exact ⟨rfl, rfl⟩

/-- C2 witness at size 32: the bars are [28, 2, 28, 6] and [26, 4, 30, 4]. -/
theorem c2_plus_bars_witness :
    32 ≤ 32 ∧
    (create_icon 32 []).image.cmds.get? 3 =
      some (DrawCmd.rectangle 28 2 28 6 text_color) ∧
    (create_icon 32 []).image.cmds.get? 4 =
      some (DrawCmd.rectangle 26 4 30 4 text_color) :=
  ⟨by decide, (c2_plus_bars 32 [] (by decide)).1, (c2_plus_bars 32 [] (by decide)).2⟩

/-- C5 counterexample: at size 150 the code computes bookmark_height = 90
and int(90 * 0.7) = 62 in binary64 (the exact truncation of 70 percent of
90 is 63), so the drawn polygon differs from the exact-truncation formula
of the claim: the third and fifth vertices are (112, 92) and (37, 92)
instead of (112, 93) and (37, 93). -/
theorem c5_counterexample :
    (create_icon 150 []).image.cmds.get? 1 ≠
      some (DrawCmd.polygon (spec_bookmark_points 150) text_color) := by
  decide

set_option maxRecDepth 40000

/-- C5 amended: for every positive size up to 149 (hence for every shipped
size) the polygon drawn is exactly the five-point bookmark of the claim,
with width size // 2, height floor(size * 0.6), centered, the side notches
at the exact truncated 70 percent height and the bottom point at the exact
truncated 90 percent height; from size 150 on the binary64 products can
fall below the exact truncation. -/
theorem c5_bookmark_polygon (size : ℕ) (f : List String) (hle : size ≤ 149)
    (hpos : 0 < size) :
    (create_icon size f).image.cmds.get? 1 =
      some (DrawCmd.polygon (spec_bookmark_points size) text_color) := by
  have key : ∀ s, s < 150 → bookmark_points s = spec_bookmark_points s := by decide
  have h1 : (create_icon size f).image.cmds.get? 1 =
      some (DrawCmd.polygon (bookmark_points size) text_color) := rfl
  rw [h1, key size (by omega)]

/-- C5 witness at size 16: the polygon is (4,3), (12,3), (12,9), (8,11), (4,9). -/
theorem c5_bookmark_polygon_witness :
    16 ≤ 149 ∧ 0 < 16 ∧
    (create_icon 16 []).image.cmds.get? 1 =
      some (DrawCmd.polygon [(4, 3), (12, 3), (12, 9), (8, 11), (4, 9)] text_color) :=
  ⟨by decide, by decide, c5_bookmark_polygon 16 [] (by decide) (by decide)⟩

/-- C10: for every positive size all five vertices of the bookmark polygon
lie inside the canvas: both coordinates are at least 0 (they live in ℕ and
every Python subtraction involved is nonnegative) and at most size. -/
theorem c10_polygon_in_canvas (size : ℕ) (hpos : 0 < size) :
    ∀ pt ∈ bookmark_points size,
      0 ≤ pt.1 ∧ pt.1 ≤ size ∧ 0 ≤ pt.2 ∧ pt.2 ≤ size := by
  have h6 : py06 size ≤ size := py06_le size
  have h7 : py07 (py06 size) ≤ py06 size := py07_le _
  have h9 : py09 (py06 size) ≤ py06 size := py09_le _
  intro pt hpt
  simp only [bookmark_points, List.mem_cons, List.not_mem_nil, or_false] at hpt
  rcases hpt with rfl | rfl | rfl | rfl | rfl <;> dsimp only <;>
    refine ⟨?_, ?_, ?_, ?_⟩ <;> omega

/-- C10 witness: at size 16 the vertex (4, 3) is inside the canvas. -/
theorem c10_polygon_in_canvas_witness :
    0 < 16 ∧ (4, 3) ∈ bookmark_points 16 ∧
    (0 ≤ 4 ∧ 4 ≤ 16 ∧ 0 ≤ 3 ∧ (3 : ℕ) ≤ 16) :=
  ⟨by decide, by decide, c10_polygon_in_canvas 16 (by decide) (4, 3) (by decide)⟩

end CreateIcons
